import Mathlib

/-!
Verification development for the promo-agent price-watch service
(`src/promo-agent/app.py`), a Flask app with a background poller.

The shallow embedding models:
* the watchlist store (a Python dict `WATCHED_PRODUCTS : str -> Optional[int]`)
  as an association list with dict update semantics;
* `int(s)` parsing of the string-encoded price (abstracted to: optional
  surrounding whitespace, optional sign, a nonempty run of decimal digits;
  any other string raises `ValueError`, modelled as `none`);
* the JSON body of the catalog-reader response, where
  `product_data.get('priceUsd', \x7b\x7d).get('units', '0')` defaults missing
  levels to the string "0";
* one poll-cycle of `check_product_prices` as a fold over the snapshot of
  keys, where the outcome of each `requests.get` is an environment input;
* `send_slack_notification` with the delivery outcome as an input;
* the `POST /watchlist` handler `add_to_watchlist`;
* the `schedule`-library loop of `run_scheduler` (a job registered with
  `schedule.every(1).minutes.do(job)` has its first `next_run` one interval
  after registration; `run_pending` runs it whenever now >= next_run);
* the lock discipline of the poller as an event trace (acquire/release,
  map reads/writes, network calls) annotated with the lock state.
-/

namespace PromoAgent

/-- A stored value: `none` models Python `None` (price not yet observed). -/
abbrev StoredPrice := Option Int

/-- The watchlist store: association list mirroring a Python dict from
product id to last-observed price, keys unique, insertion order kept. -/
abbrev Store := List (String × StoredPrice)

/-- Keys of the store, in insertion order (`WATCHED_PRODUCTS.keys()`). -/
def Store.keys (s : Store) : List String := s.map Prod.fst

/-- Dict lookup: `some v` when the key is present with value `v`,
`none` when absent. -/
def Store.get : Store → String → Option StoredPrice
  | [], _ => none
  | (k, v) :: t, k' => if k' = k then some v else Store.get t k'

/-- Python's `dict.get(key)`: `None` both when the key is absent and when it
maps to `None`.  This is `WATCHED_PRODUCTS.get(product_id)`. -/
def Store.pyGet (s : Store) (k : String) : StoredPrice :=
  (Store.get s k).join

/-- Dict assignment `d[k] = v`: overwrite in place when present, append
when absent. -/
def Store.set : Store → String → StoredPrice → Store
  | [], k, v => [(k, v)]
  | (k', v') :: t, k, v =>
      if k' = k then (k', v) :: t else (k', v') :: Store.set t k v

/-- Whitespace stripped by Python's `int` (the `str.strip` default set). -/
def isSpaceChar (c : Char) : Bool :=
  c.toNat = 32 || c.toNat = 9 || c.toNat = 10 || c.toNat = 13 ||
    c.toNat = 11 || c.toNat = 12

/-- A decimal digit `'0'..'9'`. -/
def isDigitChar (c : Char) : Bool :=
  48 ≤ c.toNat && c.toNat ≤ 57

/-- Strip leading and trailing whitespace from a character list. -/
def trimChars (cs : List Char) : List Char :=
  ((cs.dropWhile isSpaceChar).reverse.dropWhile isSpaceChar).reverse

/-- Value of a nonempty all-digit character run, `none` otherwise. -/
def digitsVal : List Char → Option Nat
  | [] => none
  | [c] => if isDigitChar c then some (c.toNat - 48) else none
  | c :: t =>
      if isDigitChar c then
        (digitsVal t).map (fun n => (c.toNat - 48) * 10 ^ t.length + n)
      else none

/-- Python `int(s)` on a string (abstraction: optional surrounding
whitespace, optional sign, nonempty digit run; otherwise `ValueError`,
modelled as `none`). -/
def pyInt (s : String) : Option Int :=
  match trimChars s.toList with
  | '-' :: rest => (digitsVal rest).map (fun n => -(n : Int))
  | '+' :: rest => (digitsVal rest).map (fun n => (n : Int))
  | cs => (digitsVal cs).map (fun n => (n : Int))

/-- The `priceUsd` sub-object of a catalog-reader response: its `units`
field may itself be missing. -/
structure PriceUsd where
  units : Option String
  deriving DecidableEq, Repr

/-- The JSON body of a successful catalog-reader response, as used by
`check_product_prices`: both `priceUsd` and `name` may be missing. -/
structure ProductData where
  priceUsd : Option PriceUsd
  name : Option String
  deriving DecidableEq, Repr

/-- `product_data.get('priceUsd', \x7b\x7d).get('units', '0')`: each missing
level defaults to the string "0". -/
def unitsStr (pd : ProductData) : String :=
  match pd.priceUsd with
  | none => "0"
  | some p => p.units.getD "0"

/-- `product_data.get('name', 'Unknown Product')`. -/
def nameStr (pd : ProductData) : String :=
  pd.name.getD "Unknown Product"

/-- Outcome of `requests.get` on the catalog-reader URL for one id:
either a `requests.exceptions.RequestException` (transport error, timeout,
or a non-2xx status raised by `raise_for_status`) or a JSON body. -/
inductive LookupOutcome where
  | transportError
  | response (pd : ProductData)
  deriving DecidableEq, Repr

/-- Outcome of the `requests.post` to the Slack webhook, when attempted. -/
inductive DeliveryResult where
  | success
  | failure
  deriving DecidableEq, Repr

/-- What `send_slack_notification` did: whether a network delivery was
attempted, and whether an exception escaped to the caller. -/
structure SlackResult where
  attempted : Bool
  raised : Bool
  deriving DecidableEq, Repr

/-- `send_slack_notification`: returns immediately when no webhook URL is
configured; otherwise posts, and a `RequestException` from the post is
caught and logged, never re-raised. -/
def send_slack_notification (slackUrl : Option String) (net : DeliveryResult) :
    SlackResult :=
  match slackUrl with
  | none => ⟨false, false⟩
  | some _ =>
      match net with
      | .success => ⟨true, false⟩
      | .failure => ⟨true, false⟩

/-- The drop test of `check_product_prices`:
`last_price is not None and current_price < last_price`. -/
def isDrop (lastPrice : StoredPrice) (currentPrice : Int) : Bool :=
  match lastPrice with
  | none => false
  | some lp => currentPrice < lp

/-- The price extracted from one lookup outcome: `none` when the lookup
raised (transport error) or the price string failed to parse
(`ValueError`), `some p` when a numeric price was obtained. -/
def lookupPrice : LookupOutcome → Option Int
  | .transportError => none
  | .response pd => pyInt (unitsStr pd)

/-- Result of processing one product id inside a poll cycle. -/
structure StepResult where
  store : Store
  notifierInvoked : Bool
  slack : Option SlackResult
  deriving DecidableEq, Repr

/-- The body of the `for product_id in product_ids` loop of
`check_product_prices` for one id: on a transport error or a price-parse
`ValueError` the exception is caught and the store is untouched; on success
the drop test runs against `WATCHED_PRODUCTS.get(product_id)`, the notifier
is invoked on a drop, and the new price is written unconditionally. -/
def processProduct (slackUrl : Option String) (net : DeliveryResult)
    (s : Store) (id : String) (out : LookupOutcome) : StepResult :=
  match out with
  | .transportError => ⟨s, false, none⟩
  | .response pd =>
      match pyInt (unitsStr pd) with
      | none => ⟨s, false, none⟩
      | some currentPrice =>
          let lastPrice := Store.pyGet s id
          if isDrop lastPrice currentPrice then
            let sr := send_slack_notification slackUrl net
            ⟨Store.set s id (some currentPrice), true, some sr⟩
          else
            ⟨Store.set s id (some currentPrice), false, none⟩

/-- Fold of `processProduct` over a list of ids, accumulating the ids for
which the notifier was invoked. -/
def runIds (slackUrl : Option String) (net : DeliveryResult)
    (env : String → LookupOutcome) :
    List String → Store → List String → Store × List String
  | [], s, acc => (s, acc)
  | id :: t, s, acc =>
      let r := processProduct slackUrl net s id (env id)
      runIds slackUrl net env t r.store
        (if r.notifierInvoked then acc ++ [id] else acc)

/-- One full poll cycle of `check_product_prices`: snapshot the keys under
the lock, then process each id.  Returns the final store and the ids for
which the notifier was invoked. -/
def check_product_prices (slackUrl : Option String) (net : DeliveryResult)
    (env : String → LookupOutcome) (s : Store) : Store × List String :=
  runIds slackUrl net env (Store.keys s) s []

/-- The hardcoded initial watchlist of `app.py`, every price `None`. -/
def WATCHED_PRODUCTS : Store :=
  [("OLJCESPC7Z", none), ("66VCHSJNUP", none), ("1YMWWN1N4O", none)]

/-- Module-level startup as a function of the OS environment: the process
refuses to start without `CATALOG_READER_URL`; the initial watchlist is the
hardcoded literal, independent of the environment. -/
def startupStore (osEnv : String → Option String) : Option Store :=
  match osEnv "CATALOG_READER_URL" with
  | none => none
  | some _ => some WATCHED_PRODUCTS

/-- `Store.add` semantics used by the `POST /watchlist` handler: insert
with `None` when absent (reporting `true`, newly created), leave the store
untouched when present (reporting `false`). -/
def Store.add (s : Store) (id : String) : Store × Bool :=
  match Store.get s id with
  | none => (Store.set s id none, true)
  | some _ => (s, false)

/-- The parsed JSON body of a `POST /watchlist` request: `none` models a
missing or unparseable body (`request.get_json()` returning `None`),
`some d` a JSON object with string values. -/
abbrev RequestBody := Option (List (String × String))

/-- Assoc-list lookup for the request body dict. -/
def bodyGet : List (String × String) → String → Option String
  | [], _ => none
  | (k, v) :: t, k' => if k' = k then some v else bodyGet t k'

/-- `if not data or 'product_id' not in data`: true for a missing body, an
empty object, or an object lacking the `product_id` key. -/
def missingProductId (data : RequestBody) : Bool :=
  match data with
  | none => true
  | some d => d.isEmpty || (bodyGet d "product_id").isNone

/-- The `POST /watchlist` handler `add_to_watchlist`: HTTP status code and
resulting store. -/
def add_to_watchlist (data : RequestBody) (s : Store) : Nat × Store :=
  match data with
  | none => (400, s)
  | some d =>
      if d.isEmpty then (400, s)
      else
        match bodyGet d "product_id" with
        | none => (400, s)
        | some pid =>
            let r := Store.add s pid
            (if r.2 then 201 else 200, r.1)

/-- State of the single job registered by
`schedule.every(1).minutes.do(check_product_prices)`: the next time (in
seconds since startup) at which `run_pending` will run it. -/
structure SchedState where
  nextRun : Nat
  deriving DecidableEq, Repr

/-- Registering a job with `schedule.every(n).minutes.do(job)` at time
`now` sets its first `next_run` a full interval later. -/
def schedule_every_minutes (n : Nat) (now : Nat) : SchedState :=
  ⟨now + n * 60⟩

/-- The `while True: schedule.run_pending(); time.sleep(1)` loop, one
iteration per second: the job runs whenever the current time has reached
`nextRun`, which is then pushed one interval ahead.  Returns the list of
times (seconds since startup) at which the job ran during the first
`fuel` iterations. -/
def loopRun : Nat → Nat → SchedState → List Nat
  | 0, _, _ => []
  | fuel + 1, t, st =>
      if st.nextRun ≤ t then t :: loopRun fuel (t + 1) ⟨t + 60⟩
      else loopRun fuel (t + 1) st

/-- `run_scheduler` observed for its first `fuel` seconds: the job is
registered at startup (time 0) with a one-minute interval, then the loop
runs. -/
def run_scheduler (fuel : Nat) : List Nat :=
  loopRun fuel 0 (schedule_every_minutes 1 0)

/-- Primitive events of the poller, for the lock-discipline analysis. -/
inductive Ev where
  | acqLock
  | relLock
  | mapRead
  | mapWrite
  | netGet
  | netPost
  deriving DecidableEq, Repr

/-- Event trace of one iteration of the `for` loop of
`check_product_prices`, following the source order: `requests.get` (and
`.raise_for_status`/`.json()`) outside the lock; on a parse failure the
`ValueError` is raised before the `with watchlist_lock` block; otherwise
the lock is acquired, the last price read, on a drop
`send_slack_notification` posts to the webhook (when configured) still
inside the `with` block, and the new price is written before release. -/
def productTrace (slackUrl : Option String) (s : Store) (id : String)
    (out : LookupOutcome) : List Ev :=
  match out with
  | .transportError => [.netGet]
  | .response pd =>
      .netGet ::
        match pyInt (unitsStr pd) with
        | none => []
        | some currentPrice =>
            [Ev.acqLock, Ev.mapRead] ++
              (if isDrop (Store.pyGet s id) currentPrice then
                (if slackUrl.isSome then [Ev.netPost] else [])
              else []) ++
              [Ev.mapWrite, Ev.relLock]

/-- Event traces of the loop iterations for a list of ids, threading the
evolving store. -/
def idsTrace (slackUrl : Option String) (net : DeliveryResult)
    (env : String → LookupOutcome) : List String → Store → List Ev
  | [], _ => []
  | id :: t, s =>
      productTrace slackUrl s id (env id) ++
        idsTrace slackUrl net env t
          (processProduct slackUrl net s id (env id)).store

/-- Full event trace of one `check_product_prices` call: the snapshot of
the keys under the lock, then the per-id iterations. -/
def cycleTrace (slackUrl : Option String) (net : DeliveryResult)
    (env : String → LookupOutcome) (s : Store) : List Ev :=
  [Ev.acqLock, Ev.mapRead, Ev.relLock] ++
    idsTrace slackUrl net env (Store.keys s) s

/-- Lock state after executing a trace, starting from `held`. -/
def lockAfter : List Ev → Bool → Bool
  | [], h => h
  | .acqLock :: t, _ => lockAfter t true
  | .relLock :: t, _ => lockAfter t false
  | _ :: t, h => lockAfter t h

/-- Each event of a trace paired with the lock state in effect when it
occurs (the state just before the event, starting from `held`). -/
def annotate : List Ev → Bool → List (Ev × Bool)
  | [], _ => []
  | .acqLock :: t, h => (Ev.acqLock, h) :: annotate t true
  | .relLock :: t, h => (Ev.relLock, h) :: annotate t false
  | e :: t, h => (e, h) :: annotate t h

/-- `true` when some network event (lookup or webhook post) of the trace
occurs while the lock is held. -/
def netUnderLock (tr : List Ev) : Bool :=
  (annotate tr false).any
    (fun eb => (eb.1 == Ev.netGet || eb.1 == Ev.netPost) && eb.2)

/-- `true` when some price-lookup (`requests.get`) event of the trace
occurs while the lock is held. -/
def getUnderLock (tr : List Ev) : Bool :=
  (annotate tr false).any (fun eb => eb.1 == Ev.netGet && eb.2)

/-- `true` when some webhook-post event of the trace occurs while the lock
is NOT held. -/
def postOutsideLock (tr : List Ev) : Bool :=
  (annotate tr false).any (fun eb => eb.1 == Ev.netPost && !eb.2)

/-- A trace respects the intended lock discipline when no price lookup
happens under the lock, every webhook post happens under the lock (as the
source has it), and the trace ends with the lock released. -/
def lockSafe (tr : List Ev) : Prop :=
  getUnderLock tr = false ∧ postOutsideLock tr = false ∧
    lockAfter tr false = false

/-- Operations that mutate the store over the process lifetime: a Control
API `POST /watchlist` call, or one background poll cycle. -/
inductive Op where
  | apiAdd (id : String)
  | poll (slackUrl : Option String) (net : DeliveryResult)
      (env : String → LookupOutcome)

/-- Effect of one operation on the store. -/
def applyOp (s : Store) : Op → Store
  | .apiAdd id => (Store.add s id).1
  | .poll slackUrl net env => (check_product_prices slackUrl net env s).1

/-- The store reached from the startup seed after a sequence of
operations. -/
def runOps (ops : List Op) : Store :=
  ops.foldl applyOp WATCHED_PRODUCTS

/-! ### Store lemmas -/

theorem Store.keys_nil : Store.keys [] = [] := rfl

theorem Store.keys_cons (k : String) (v : StoredPrice) (t : Store) :
    Store.keys ((k, v) :: t) = k :: Store.keys t := rfl

theorem Store.get_set_self (s : Store) (k : String) (v : StoredPrice) :
    Store.get (Store.set s k v) k = some v := by
  induction s with
  | nil => simp [Store.set, Store.get]
  | cons hd t ih =>
      obtain ⟨k', v'⟩ := hd
      by_cases hk : k' = k
      · subst hk
        simp [Store.set, Store.get]
      · have hk' : ¬ k = k' := fun h => hk h.symm
        simp [Store.set, Store.get, hk, hk', ih]

theorem Store.get_set_ne (s : Store) (k j : String) (v : StoredPrice)
    (hj : j ≠ k) : Store.get (Store.set s k v) j = Store.get s j := by
  induction s with
  | nil => simp [Store.set, Store.get, hj]
  | cons hd t ih =>
      obtain ⟨k', v'⟩ := hd
      by_cases hk : k' = k
      · subst hk
        have hj' : ¬ j = k' := hj
        simp [Store.set, Store.get, hj']
      · by_cases hjk : j = k'
        · subst hjk
          simp [Store.set, Store.get, hk]
        · simp [Store.set, Store.get, hk, hjk, ih]

theorem Store.mem_keys_set (s : Store) (k j : String) (v : StoredPrice) :
    j ∈ Store.keys (Store.set s k v) ↔ j ∈ Store.keys s ∨ j = k := by
  induction s with
  | nil => simp [Store.set, Store.keys_cons, Store.keys_nil]
  | cons hd t ih =>
      obtain ⟨k', v'⟩ := hd
      by_cases hk : k' = k
      · subst hk
        simp [Store.set, Store.keys_cons]
        tauto
      · simp only [Store.set, if_neg hk, Store.keys_cons, List.mem_cons, ih]
        tauto

theorem Store.keys_set_of_mem (s : Store) (k : String) (v : StoredPrice)
    (hk : k ∈ Store.keys s) : Store.keys (Store.set s k v) = Store.keys s := by
  induction s with
  | nil => simp [Store.keys_nil] at hk
  | cons hd t ih =>
      obtain ⟨k', v'⟩ := hd
      by_cases hkk : k' = k
      · subst hkk
        simp [Store.set, Store.keys_cons]
      · have hk' : k ∈ Store.keys t := by
          rw [Store.keys_cons, List.mem_cons] at hk
          rcases hk with h | h
          · exact absurd h.symm hkk
          · exact h
        simp only [Store.set, if_neg hkk, Store.keys_cons, ih hk']

theorem Store.mem_keys_iff_get (s : Store) (k : String) :
    k ∈ Store.keys s ↔ (Store.get s k).isSome := by
  induction s with
  | nil => simp [Store.keys_nil, Store.get]
  | cons hd t ih =>
      obtain ⟨k', v'⟩ := hd
      by_cases hk : k = k'
      · subst hk
        simp [Store.keys_cons, Store.get]
      · simp [Store.keys_cons, Store.get, hk, ih]

theorem Store.mem_keys_add (s : Store) (k j : String) :
    j ∈ Store.keys (Store.add s k).1 ↔ j ∈ Store.keys s ∨ j = k := by
  unfold Store.add
  cases hg : Store.get s k with
  | none => simpa using Store.mem_keys_set s k j none
  | some v =>
      have hk : k ∈ Store.keys s := by
        rw [Store.mem_keys_iff_get, hg]
        rfl
      simp only []
      constructor
      · exact fun h => Or.inl h
      · rintro (h | rfl)
        · exact h
        · exact hk

/-! ### Per-product processing lemmas -/

theorem processProduct_fail (u : Option String) (n : DeliveryResult)
    (s : Store) (id : String) (out : LookupOutcome)
    (h : lookupPrice out = none) :
    processProduct u n s id out = ⟨s, false, none⟩ := by
  cases out with
  | transportError => rfl
  | response pd =>
      simp only [lookupPrice] at h
      simp [processProduct, h]

theorem processProduct_succ_store (u : Option String) (n : DeliveryResult)
    (s : Store) (id : String) (out : LookupOutcome) (p : Int)
    (h : lookupPrice out = some p) :
    (processProduct u n s id out).store = Store.set s id (some p) := by
  cases out with
  | transportError => simp [lookupPrice] at h
  | response pd =>
      simp only [lookupPrice] at h
      by_cases hd : isDrop (Store.pyGet s id) p
      · simp [processProduct, h, hd]
      · simp [processProduct, h, hd]

theorem processProduct_succ_notify (u : Option String) (n : DeliveryResult)
    (s : Store) (id : String) (out : LookupOutcome) (p : Int)
    (h : lookupPrice out = some p) :
    (processProduct u n s id out).notifierInvoked =
      isDrop (Store.pyGet s id) p := by
  cases out with
  | transportError => simp [lookupPrice] at h
  | response pd =>
      simp only [lookupPrice] at h
      by_cases hd : isDrop (Store.pyGet s id) p
      · simp [processProduct, h, hd]
      · simp [processProduct, h, hd]

theorem processProduct_get_ne (u : Option String) (n : DeliveryResult)
    (s : Store) (id j : String) (out : LookupOutcome) (hj : j ≠ id) :
    Store.get (processProduct u n s id out).store j = Store.get s j := by
  cases hp : lookupPrice out with
  | none => rw [processProduct_fail u n s id out hp]
  | some p =>
      rw [processProduct_succ_store u n s id out p hp]
      exact Store.get_set_ne s id j (some p) hj

theorem processProduct_keys (u : Option String) (n : DeliveryResult)
    (s : Store) (id : String) (out : LookupOutcome)
    (hid : id ∈ Store.keys s) :
    Store.keys (processProduct u n s id out).store = Store.keys s := by
  cases hp : lookupPrice out with
  | none => rw [processProduct_fail u n s id out hp]
  | some p =>
      rw [processProduct_succ_store u n s id out p hp]
      exact Store.keys_set_of_mem s id (some p) hid

/-! ### Poll-cycle lemmas -/

theorem runIds_get_notMem (u : Option String) (n : DeliveryResult)
    (env : String → LookupOutcome) (ids : List String) (s : Store)
    (acc : List String) (i : String) (hi : i ∉ ids) :
    Store.get (runIds u n env ids s acc).1 i = Store.get s i := by
  induction ids generalizing s acc with
  | nil => rfl
  | cons id t ih =>
      have hne : i ≠ id := fun h => hi (h ▸ List.mem_cons_self id t)
      have hit : i ∉ t := fun h => hi (List.mem_cons_of_mem id h)
      rw [runIds, ih _ _ hit, processProduct_get_ne u n s id i (env id) hne]

theorem runIds_acc_notMem (u : Option String) (n : DeliveryResult)
    (env : String → LookupOutcome) (ids : List String) (s : Store)
    (acc : List String) (i : String) (hi : i ∉ ids) :
    (i ∈ (runIds u n env ids s acc).2 ↔ i ∈ acc) := by
  induction ids generalizing s acc with
  | nil => exact Iff.rfl
  | cons id t ih =>
      have hne : i ≠ id := fun h => hi (h ▸ List.mem_cons_self id t)
      have hit : i ∉ t := fun h => hi (List.mem_cons_of_mem id h)
      rw [runIds, ih _ _ hit]
      by_cases hn : (processProduct u n s id (env id)).notifierInvoked
      · simp [hn, hne]
      · simp [hn]

theorem runIds_succ (u : Option String) (n : DeliveryResult)
    (env : String → LookupOutcome) (ids : List String) (s : Store)
    (acc : List String) (i : String) (p : Int)
    (hnd : ids.Nodup) (hi : i ∈ ids) (hp : lookupPrice (env i) = some p) :
    Store.get (runIds u n env ids s acc).1 i = some (some p) ∧
      (i ∈ (runIds u n env ids s acc).2 ↔
        i ∈ acc ∨ isDrop (Store.pyGet s i) p = true) := by
  induction ids generalizing s acc with
  | nil => cases hi
  | cons id t ih =>
      rw [List.nodup_cons] at hnd
      rcases List.mem_cons.mp hi with rfl | hit
      · have hit : i ∉ t := hnd.1
        rw [runIds]
        constructor
        · rw [runIds_get_notMem u n env t _ _ i hit,
            processProduct_succ_store u n s i (env i) p hp,
            Store.get_set_self]
        · rw [runIds_acc_notMem u n env t _ _ i hit,
            processProduct_succ_notify u n s i (env i) p hp]
          by_cases hd : isDrop (Store.pyGet s i) p
          · simp [hd]
          · simp [hd]
      · have hne : i ≠ id := fun h => hnd.1 (h ▸ hit)
        rw [runIds]
        have hpy : Store.pyGet (processProduct u n s id (env id)).store i =
            Store.pyGet s i := by
          unfold Store.pyGet
          rw [processProduct_get_ne u n s id i (env id) hne]
        have := ih (processProduct u n s id (env id)).store
          (if (processProduct u n s id (env id)).notifierInvoked then
            acc ++ [id] else acc) hnd.2 hit
        rw [hpy] at this
        refine ⟨this.1, ?_⟩
        rw [this.2]
        by_cases hn : (processProduct u n s id (env id)).notifierInvoked
        · simp [hn, hne]
        · simp [hn]

theorem runIds_fail (u : Option String) (n : DeliveryResult)
    (env : String → LookupOutcome) (ids : List String) (s : Store)
    (acc : List String) (i : String) (hp : lookupPrice (env i) = none) :
    Store.get (runIds u n env ids s acc).1 i = Store.get s i ∧
      (i ∈ (runIds u n env ids s acc).2 ↔ i ∈ acc) := by
  induction ids generalizing s acc with
  | nil => exact ⟨rfl, Iff.rfl⟩
  | cons id t ih =>
      rw [runIds]
      by_cases hne : i = id
      · subst hne
        rw [processProduct_fail u n s i (env i) hp]
        simpa using ih s acc
      · have h1 : Store.get (processProduct u n s id (env id)).store i =
            Store.get s i := processProduct_get_ne u n s id i (env id) hne
        have := ih (processProduct u n s id (env id)).store
          (if (processProduct u n s id (env id)).notifierInvoked then
            acc ++ [id] else acc)
        rw [h1] at this
        refine ⟨this.1, ?_⟩
        rw [this.2]
        by_cases hn : (processProduct u n s id (env id)).notifierInvoked
        · simp [hn, hne]
        · simp [hn]

theorem runIds_keys (u : Option String) (n : DeliveryResult)
    (env : String → LookupOutcome) (ids : List String) (s : Store)
    (acc : List String) (h : ∀ x ∈ ids, x ∈ Store.keys s) :
    Store.keys (runIds u n env ids s acc).1 = Store.keys s := by
  induction ids generalizing s acc with
  | nil => rfl
  | cons id t ih =>
      rw [runIds]
      have hid : id ∈ Store.keys s := h id (List.mem_cons_self id t)
      have hk : Store.keys (processProduct u n s id (env id)).store =
          Store.keys s := processProduct_keys u n s id (env id) hid
      rw [ih _ _ (fun x hx => hk ▸ h x (List.mem_cons_of_mem id hx)), hk]

/-- The drop test against the joined stored value, phrased as the spec
phrases it: a previously observed price exists and the new price is
strictly below it. -/
theorem isDrop_pyGet_iff (s : Store) (i : String) (p : Int) :
    isDrop (Store.pyGet s i) p = true ↔
      ∃ lp, Store.get s i = some (some lp) ∧ p < lp := by
  unfold Store.pyGet isDrop
  cases hg : Store.get s i with
  | none => simp [Option.join]
  | some v =>
      cases v with
      | none => simp [Option.join]
      | some lp => simp [Option.join]

/-! ### Lock-discipline lemmas -/

theorem lockAfter_append (a b : List Ev) (h : Bool) :
    lockAfter (a ++ b) h = lockAfter b (lockAfter a h) := by
  induction a generalizing h with
  | nil => rfl
  | cons e t ih => cases e <;> simp [lockAfter, ih]

theorem annotate_append (a b : List Ev) (h : Bool) :
    annotate (a ++ b) h = annotate a h ++ annotate b (lockAfter a h) := by
  induction a generalizing h with
  | nil => rfl
  | cons e t ih => cases e <;> simp [annotate, lockAfter, ih]

theorem lockSafe_append (a b : List Ev) (ha : lockSafe a) (hb : lockSafe b) :
    lockSafe (a ++ b) := by
  obtain ⟨ha1, ha2, ha3⟩ := ha
  obtain ⟨hb1, hb2, hb3⟩ := hb
  unfold lockSafe getUnderLock postOutsideLock at *
  rw [annotate_append, lockAfter_append, ha3]
  refine ⟨?_, ?_, hb3⟩
  · rw [List.any_append, ha1, hb1]
    rfl
  · rw [List.any_append, ha2, hb2]
    rfl

/-- The trace of one loop iteration takes one of three shapes: a failed
lookup, a successful lookup with no drop or with the webhook unconfigured,
or a successful lookup with a drop and a configured webhook. -/
theorem productTrace_cases (u : Option String) (s : Store) (id : String)
    (out : LookupOutcome) :
    productTrace u s id out = [Ev.netGet] ∨
    productTrace u s id out =
      [Ev.netGet, Ev.acqLock, Ev.mapRead, Ev.mapWrite, Ev.relLock] ∨
    productTrace u s id out =
      [Ev.netGet, Ev.acqLock, Ev.mapRead, Ev.netPost, Ev.mapWrite,
        Ev.relLock] := by
  cases out with
  | transportError => exact Or.inl rfl
  | response pd =>
      cases hp : pyInt (unitsStr pd) with
      | none => left; simp [productTrace, hp]
      | some p =>
          by_cases hd : isDrop (Store.pyGet s id) p
          · cases u with
            | none => right; left; simp [productTrace, hp, hd]
            | some url => right; right; simp [productTrace, hp, hd]
          · right; left; simp [productTrace, hp, hd]

theorem productTrace_lockSafe (u : Option String) (s : Store) (id : String)
    (out : LookupOutcome) : lockSafe (productTrace u s id out) := by
  rcases productTrace_cases u s id out with h | h | h <;> rw [h] <;>
    exact ⟨by decide, by decide, by decide⟩

theorem idsTrace_lockSafe (u : Option String) (n : DeliveryResult)
    (env : String → LookupOutcome) (ids : List String) (s : Store) :
    lockSafe (idsTrace u n env ids s) := by
  induction ids generalizing s with
  | nil => exact ⟨rfl, rfl, rfl⟩
  | cons id t ih =>
      rw [idsTrace]
      exact lockSafe_append _ _ (productTrace_lockSafe u s id (env id)) (ih _)

/-! ### Scheduler lemmas -/

theorem loopRun_mem (fuel : Nat) : ∀ (t nr m : Nat), t ≤ nr →
    (m ∈ loopRun fuel t ⟨nr⟩ ↔
      nr ≤ m ∧ m < t + fuel ∧ (m - nr) % 60 = 0) := by
  induction fuel with
  | zero =>
      intro t nr m ht
      simp only [loopRun, List.not_mem_nil, false_iff]
      omega
  | succ f ih =>
      intro t nr m ht
      rw [loopRun]
      by_cases h : nr ≤ t
      · rw [if_pos h, List.mem_cons, ih (t + 1) (t + 60) m (by omega)]
        omega
      · rw [if_neg h, ih (t + 1) nr m (by omega)]
        omega

/-! ### Reachable-store lemmas -/

theorem mem_keys_applyOp (s : Store) (op : Op) (k : String) :
    k ∈ Store.keys (applyOp s op) ↔
      k ∈ Store.keys s ∨ op = Op.apiAdd k := by
  cases op with
  | apiAdd id =>
      rw [applyOp, Store.mem_keys_add]
      constructor
      · rintro (h | rfl)
        · exact Or.inl h
        · exact Or.inr rfl
      · rintro (h | h)
        · exact Or.inl h
        · cases h
          exact Or.inr rfl
  | poll u n env =>
      rw [applyOp, check_product_prices,
        runIds_keys u n env (Store.keys s) s [] (fun x hx => hx)]
      constructor
      · exact Or.inl
      · rintro (h | h)
        · exact h
        · cases h

theorem mem_keys_foldl (ops : List Op) : ∀ (s : Store) (k : String),
    k ∈ Store.keys (ops.foldl applyOp s) ↔
      k ∈ Store.keys s ∨ Op.apiAdd k ∈ ops := by
  induction ops with
  | nil => intro s k; simp
  | cons op t ih =>
      intro s k
      rw [List.foldl_cons, ih, mem_keys_applyOp, List.mem_cons]
      constructor
      · rintro ((h | h) | h)
        · exact Or.inl h
        · exact Or.inr (Or.inl h.symm)
        · exact Or.inr (Or.inr h)
      · rintro (h | h | h)
        · exact Or.inl (Or.inl h)
        · exact Or.inl (Or.inr h.symm)
        · exact Or.inr h

/-! ### Claim theorems -/

/-- C1: in a poll cycle over a duplicate-free snapshot, for an identifier
whose lookup succeeds with price `p`, the Notifier is invoked if and only
if the store held a previously observed price strictly above `p` (a first
observation or an equal-or-higher price never notifies), and the stored
price afterwards is `p` regardless of the webhook configuration and the
delivery outcome. -/
theorem poll_cycle_notifies_iff_price_drop (u : Option String)
    (net : DeliveryResult) (env : String → LookupOutcome) (s : Store)
    (i : String) (p : Int) (hnd : (Store.keys s).Nodup)
    (hi : i ∈ Store.keys s) (hp : lookupPrice (env i) = some p) :
    Store.get (check_product_prices u net env s).1 i = some (some p) ∧
      (i ∈ (check_product_prices u net env s).2 ↔
        ∃ lp, Store.get s i = some (some lp) ∧ p < lp) := by
  have h := runIds_succ u net env (Store.keys s) s [] i p hnd hi hp
  rw [check_product_prices]
  refine ⟨h.1, ?_⟩
  rw [h.2]
  simp [isDrop_pyGet_iff]

/-- Witness for C1 at a concrete store and environment: "A" was last seen
at 10, the lookup returns "5", so the stored price becomes 5 and "A" is
notified (5 < 10). -/
theorem poll_cycle_notifies_iff_price_drop_witness :
    Store.get (check_product_prices (some "hook") DeliveryResult.success
      (fun k => if k = "A" then
        LookupOutcome.response ⟨some ⟨some "5"⟩, some "W"⟩
      else LookupOutcome.transportError)
      [("A", some 10), ("B", none)]).1 "A" = some (some 5) ∧
    ("A" ∈ (check_product_prices (some "hook") DeliveryResult.success
      (fun k => if k = "A" then
        LookupOutcome.response ⟨some ⟨some "5"⟩, some "W"⟩
      else LookupOutcome.transportError)
      [("A", some 10), ("B", none)]).2 ↔
      ∃ lp, Store.get [("A", some 10), ("B", none)] "A" = some (some lp) ∧
        (5 : Int) < lp) :=
  poll_cycle_notifies_iff_price_drop (some "hook") DeliveryResult.success
    (fun k => if k = "A" then
      LookupOutcome.response ⟨some ⟨some "5"⟩, some "W"⟩
    else LookupOutcome.transportError)
    [("A", some 10), ("B", none)] "A" 5 (by decide) (by decide) (by decide)

/-- C2 counterexample: with a configured webhook, a watched product last
seen at 10 and a lookup returning "5", the poll cycle performs the webhook
post while the watchlist lock is held, so the claim that the lock is never
held across a network call is false. -/
theorem network_call_under_lock_counterexample :
    netUnderLock (cycleTrace (some "hook") DeliveryResult.success
      (fun k => if k = "A" then
        LookupOutcome.response ⟨some ⟨some "5"⟩, some "W"⟩
      else LookupOutcome.transportError)
      [("A", some 10)]) = true := by decide

/-- C2 amended: the lock is never held across the price-lookup call
(`requests.get` always runs with the lock released), but the notification
delivery, whenever it happens, runs while the lock is held — the
protection claim holds for the Price Source Client only. -/
theorem lock_never_held_across_lookup (u : Option String)
    (n : DeliveryResult) (env : String → LookupOutcome) (s : Store) :
    getUnderLock (cycleTrace u n env s) = false ∧
      postOutsideLock (cycleTrace u n env s) = false := by
  have h := lockSafe_append [Ev.acqLock, Ev.mapRead, Ev.relLock]
    (idsTrace u n env (Store.keys s) s) ⟨by decide, by decide, by decide⟩
    (idsTrace_lockSafe u n env (Store.keys s) s)
  exact ⟨h.1, h.2.1⟩

/-- C3 counterexample: a response whose `priceUsd` field is missing is not
skipped: with "A" last seen at 10, the defaulted price 0 both overwrites
the stored price and triggers a notification. -/
theorem missing_price_field_counterexample :
    ¬ ((processProduct (some "hook") DeliveryResult.success
        [("A", some 10)] "A"
        (LookupOutcome.response ⟨none, some "W"⟩)).store = [("A", some 10)] ∧
      (processProduct (some "hook") DeliveryResult.success
        [("A", some 10)] "A"
        (LookupOutcome.response ⟨none, some "W"⟩)).notifierInvoked =
        false) := by decide

/-- C3 amended: a non-numeric string-encoded price is a parse failure —
the identifier is skipped, the store is unchanged and nothing is notified;
but a response lacking `priceUsd` (or lacking `priceUsd.units`) is
defaulted to the string "0" and interpreted as the valid price 0. -/
theorem malformed_price_skipped_missing_field_zero (u : Option String)
    (n : DeliveryResult) (s : Store) (id : String) (pd : ProductData) :
    (pyInt (unitsStr pd) = none →
      processProduct u n s id (LookupOutcome.response pd) =
        ⟨s, false, none⟩) ∧
    (pd.priceUsd = none → pyInt (unitsStr pd) = some 0) ∧
    (∀ pu, pd.priceUsd = some pu → pu.units = none →
      pyInt (unitsStr pd) = some 0) := by
  refine ⟨?_, ?_, ?_⟩
  · intro h
    exact processProduct_fail u n s id _ h
  · intro h
    have hu : unitsStr pd = "0" := by simp [unitsStr, h]
    rw [hu]
    decide
  · intro pu h1 h2
    have hu : unitsStr pd = "0" := by simp [unitsStr, h1, h2]
    rw [hu]
    decide

/-- Witness for C3 amended: a literal non-numeric price "x9" is skipped;
a missing `priceUsd` and a missing `units` both parse as 0. -/
theorem malformed_price_skipped_missing_field_zero_witness :
    processProduct (some "hook") DeliveryResult.success [("A", some 3)] "A"
      (LookupOutcome.response ⟨some ⟨some "x9"⟩, none⟩) =
      ⟨[("A", some 3)], false, none⟩ ∧
    pyInt (unitsStr ⟨none, some "W"⟩) = some 0 ∧
    pyInt (unitsStr ⟨some ⟨none⟩, some "W"⟩) = some 0 :=
  ⟨(malformed_price_skipped_missing_field_zero (some "hook")
      DeliveryResult.success [("A", some 3)] "A"
      ⟨some ⟨some "x9"⟩, none⟩).1 (by decide),
    (malformed_price_skipped_missing_field_zero (some "hook")
      DeliveryResult.success [("A", some 3)] "A" ⟨none, some "W"⟩).2.1 rfl,
    (malformed_price_skipped_missing_field_zero (some "hook")
      DeliveryResult.success [("A", some 3)] "A"
      ⟨some ⟨none⟩, some "W"⟩).2.2 ⟨none⟩ rfl rfl⟩

/-- C4 counterexample: during the first two minutes after startup the job
runs at seconds 60 and 120 only — in particular it does not run at second
0, so there is no immediate first cycle. -/
theorem first_cycle_not_immediate_counterexample :
    run_scheduler 121 = [60, 120] ∧ 0 ∉ run_scheduler 121 := by decide

/-- C4 amended: the poller runs exactly at the positive multiples of the
one-minute period — the first cycle happens one full period after startup
(no immediate run), and thereafter once per minute. -/
theorem scheduler_first_run_after_one_period (fuel m : Nat) :
    m ∈ run_scheduler fuel ↔ 0 < m ∧ m < fuel ∧ m % 60 = 0 := by
  have h := loopRun_mem fuel 0 60 m (by omega)
  rw [run_scheduler]
  have hs : schedule_every_minutes 1 0 = ⟨60⟩ := by
    simp [schedule_every_minutes]
  rw [hs, h]
  omega

/-- C5: a failing lookup for X leaves X's stored price unchanged and never
notifies X, while any other identifier in the same cycle's snapshot whose
lookup succeeds is still processed (its price is written). -/
theorem failed_lookup_isolated (u : Option String) (net : DeliveryResult)
    (env : String → LookupOutcome) (s : Store) (X j : String) (p : Int)
    (hnd : (Store.keys s).Nodup) (_hX : X ∈ Store.keys s)
    (hj : j ∈ Store.keys s) (_hne : j ≠ X)
    (hfail : lookupPrice (env X) = none)
    (hsucc : lookupPrice (env j) = some p) :
    Store.get (check_product_prices u net env s).1 X = Store.get s X ∧
      X ∉ (check_product_prices u net env s).2 ∧
      Store.get (check_product_prices u net env s).1 j = some (some p) := by
  have hf := runIds_fail u net env (Store.keys s) s [] X hfail
  have hs := runIds_succ u net env (Store.keys s) s [] j p hnd hj hsucc
  rw [check_product_prices]
  exact ⟨hf.1, fun h => (List.not_mem_nil X) (hf.2.mp h), hs.1⟩

/-- Witness for C5: "A" errors, "B" succeeds with price 5; after the cycle
"A" still holds 10, "A" is not notified, "B" holds 5. -/
theorem failed_lookup_isolated_witness :
    Store.get (check_product_prices none DeliveryResult.success
      (fun k => if k = "B" then
        LookupOutcome.response ⟨some ⟨some "5"⟩, some "W"⟩
      else LookupOutcome.transportError)
      [("A", some 10), ("B", some 7)]).1 "A" =
        Store.get [("A", some 10), ("B", some 7)] "A" ∧
    "A" ∉ (check_product_prices none DeliveryResult.success
      (fun k => if k = "B" then
        LookupOutcome.response ⟨some ⟨some "5"⟩, some "W"⟩
      else LookupOutcome.transportError)
      [("A", some 10), ("B", some 7)]).2 ∧
    Store.get (check_product_prices none DeliveryResult.success
      (fun k => if k = "B" then
        LookupOutcome.response ⟨some ⟨some "5"⟩, some "W"⟩
      else LookupOutcome.transportError)
      [("A", some 10), ("B", some 7)]).1 "B" = some (some 5) :=
  failed_lookup_isolated none DeliveryResult.success
    (fun k => if k = "B" then
      LookupOutcome.response ⟨some ⟨some "5"⟩, some "W"⟩
    else LookupOutcome.transportError)
    [("A", some 10), ("B", some 7)] "A" "B" 5 (by decide) (by decide)
    (by decide) (by decide) (by decide) (by decide)

/-- C6: adding an identifier is idempotent and never fails: when absent it
is inserted with an unset price and reported as newly created; when
present the store is left completely unchanged and the distinct
already-exists status is reported; a second add is always a no-op. -/
theorem watchlist_add_idempotent (s : Store) (id : String) :
    (Store.get s id = none →
      Store.add s id = (Store.set s id none, true) ∧
        Store.get (Store.add s id).1 id = some none) ∧
    (∀ v, Store.get s id = some v → Store.add s id = (s, false)) ∧
    Store.add (Store.add s id).1 id = ((Store.add s id).1, false) := by
  refine ⟨?_, ?_, ?_⟩
  · intro h
    constructor
    · simp [Store.add, h]
    · simp [Store.add, h, Store.get_set_self]
  · intro v h
    simp [Store.add, h]
  · cases hg : Store.get s id with
    | none => simp [Store.add, hg, Store.get_set_self]
    | some v => simp [Store.add, hg]

/-- Witness for C6: adding "B" to an empty store creates it with an unset
price; adding "A" to a store already holding it at price 3 changes
nothing and reports already-exists; re-adding "B" is a no-op. -/
theorem watchlist_add_idempotent_witness :
    Store.add ([] : Store) "B" = ([("B", none)], true) ∧
    Store.get (Store.add ([] : Store) "B").1 "B" = some none ∧
    Store.add [("A", some 3)] "A" = ([("A", some 3)], false) ∧
    Store.add (Store.add ([] : Store) "B").1 "B" =
      ((Store.add ([] : Store) "B").1, false) :=
  ⟨((watchlist_add_idempotent [] "B").1 rfl).1,
    ((watchlist_add_idempotent [] "B").1 rfl).2,
    (watchlist_add_idempotent [("A", some 3)] "A").2.1 (some 3) rfl,
    (watchlist_add_idempotent [] "B").2.2⟩

/-- C7 counterexample: a request whose `product_id` is the empty string is
accepted with 201 Created, not rejected with 400, so the handler does not
validate non-emptiness of the identifier. -/
theorem empty_product_id_accepted_counterexample :
    (add_to_watchlist (some [("product_id", "")]) ([] : Store)).1 = 201 ∧
    (add_to_watchlist (some [("product_id", "")]) ([] : Store)).1 ≠ 400 := by
  decide

/-- C7 amended: the handler responds 400 exactly when the body is missing,
an empty object, or lacks the `product_id` key (the value is not checked
for non-emptiness); otherwise it responds 201 for a new identifier and 200
for a duplicate — both success statuses. -/
theorem watchlist_post_status (data : RequestBody) (s : Store) :
    ((add_to_watchlist data s).1 = 400 ↔ missingProductId data = true) ∧
    (∀ d pid, data = some d → bodyGet d "product_id" = some pid →
      d.isEmpty = false →
      (add_to_watchlist data s).1 =
        if Store.get s pid = none then 201 else 200) := by
  constructor
  · cases data with
    | none => simp [add_to_watchlist, missingProductId]
    | some d =>
        by_cases he : d.isEmpty
        · simp [add_to_watchlist, missingProductId, he]
        · cases hb : bodyGet d "product_id" with
          | none => simp [add_to_watchlist, missingProductId, he, hb]
          | some pid =>
              cases h2 : (Store.add s pid).2 <;>
                simp [add_to_watchlist, missingProductId, he, hb, h2]
  · rintro d pid rfl hb he
    cases hg : Store.get s pid with
    | none => simp [add_to_watchlist, he, hb, hg, Store.add]
    | some v => simp [add_to_watchlist, he, hb, hg, Store.add]

/-- Witness for C7 amended: posting a fresh identifier "P1" to the empty
store yields 201; a missing body yields 400. -/
theorem watchlist_post_status_witness :
    (add_to_watchlist (some [("product_id", "P1")]) ([] : Store)).1 =
      (if Store.get ([] : Store) "P1" = none then 201 else 200) ∧
    ((add_to_watchlist none ([] : Store)).1 = 400 ↔
      missingProductId none = true) :=
  ⟨(watchlist_post_status (some [("product_id", "P1")]) ([] : Store)).2
      [("product_id", "P1")] "P1" rfl (by decide) (by decide),
    (watchlist_post_status none ([] : Store)).1⟩

/-- C8: with no webhook configured `send_slack_notification` succeeds
immediately without attempting delivery; with a webhook a delivery failure
is never raised to the caller; and the store written by a poll step does
not depend on the delivery outcome — a failed notification never prevents
the price write. -/
theorem notification_failure_never_blocks_write (u : String)
    (net n' : DeliveryResult) (cfg : Option String) (s : Store)
    (id : String) (out : LookupOutcome) :
    send_slack_notification none net = ⟨false, false⟩ ∧
    send_slack_notification (some u) DeliveryResult.failure =
      ⟨true, false⟩ ∧
    (processProduct cfg net s id out).store =
      (processProduct cfg n' s id out).store ∧
    (processProduct cfg net s id out).notifierInvoked =
      (processProduct cfg n' s id out).notifierInvoked := by
  refine ⟨rfl, rfl, ?_, ?_⟩
  · cases hp : lookupPrice out with
    | none =>
        rw [processProduct_fail cfg net s id out hp,
          processProduct_fail cfg n' s id out hp]
    | some p =>
        rw [processProduct_succ_store cfg net s id out p hp,
          processProduct_succ_store cfg n' s id out p hp]
  · cases hp : lookupPrice out with
    | none =>
        rw [processProduct_fail cfg net s id out hp,
          processProduct_fail cfg n' s id out hp]
    | some p =>
        rw [processProduct_succ_notify cfg net s id out p hp,
          processProduct_succ_notify cfg n' s id out p hp]

/-- C9: after any sequence of Control API adds and poll cycles, the store's
key set is exactly the startup seed plus the identifiers passed to the add
operation — the poller never inserts a key and nothing ever deletes one. -/
theorem store_keys_seed_or_api_added (ops : List Op) (k : String) :
    k ∈ Store.keys (runOps ops) ↔
      k ∈ Store.keys WATCHED_PRODUCTS ∨ Op.apiAdd k ∈ ops :=
  mem_keys_foldl ops WATCHED_PRODUCTS k

/-- C10: the startup watchlist is the hardcoded three-identifier seed,
every entry with an unset price, independent of the configuration
environment (which only gates startup on `CATALOG_READER_URL`). -/
theorem seed_watchlist_hardcoded (osEnv : String → Option String) :
    WATCHED_PRODUCTS =
      [("OLJCESPC7Z", none), ("66VCHSJNUP", none), ("1YMWWN1N4O", none)] ∧
    Store.keys WATCHED_PRODUCTS =
      ["OLJCESPC7Z", "66VCHSJNUP", "1YMWWN1N4O"] ∧
    (∀ k v, (k, v) ∈ WATCHED_PRODUCTS → v = none) ∧
    (∀ url, osEnv "CATALOG_READER_URL" = some url →
      startupStore osEnv = some WATCHED_PRODUCTS) := by
  refine ⟨rfl, rfl, ?_, ?_⟩
  · intro k v h
    simp [WATCHED_PRODUCTS] at h
    tauto
  · intro url h
    simp [startupStore, h]

/-- Witness for C10 at a concrete environment providing the catalog URL. -/
theorem seed_watchlist_hardcoded_witness :
    WATCHED_PRODUCTS =
      [("OLJCESPC7Z", none), ("66VCHSJNUP", none), ("1YMWWN1N4O", none)] ∧
    startupStore (fun _ => some "http://catalog-reader") =
      some WATCHED_PRODUCTS ∧
    (none : StoredPrice) = none :=
  ⟨(seed_watchlist_hardcoded (fun _ => some "http://catalog-reader")).1,
    (seed_watchlist_hardcoded (fun _ => some "http://catalog-reader")).2.2.2
      "http://catalog-reader" rfl,
    (seed_watchlist_hardcoded (fun _ => some "http://catalog-reader")).2.2.1
      "OLJCESPC7Z" none (by decide)⟩

end PromoAgent
